import Mathlib

/-!
Verification of the Signature Injection Engine core: the normalized field
model, the interactive placement engine (drop, drag, resize), the
percentage-to-page coordinate transform, the aspect-fit algorithm, and the
sign-pdf render pipeline. All pixel/percentage/point quantities are modelled
as exact rationals.
-/

namespace SigEngine

/-- A placed field, as exchanged across the frontend/backend boundary:
`{id, type, x, y, width, height, value, options}`. Geometry is in
percentages of the container. `value = none` models a JS `null`. -/
structure Field where
  id : String
  type : String
  x : ℚ
  y : ℚ
  width : ℚ
  height : ℚ
  value : Option String
  options : Option (List String)
  deriving Repr, DecidableEq

/-- JS truthiness test on an optional string: `null`/`undefined` (`none`)
and the empty string are falsy, as in the handler's `!field.value` checks. -/
def falsyStr : Option String → Bool
  | none => true
  | some s => s == ""

/-- A rectangle in page space (PDF points, bottom-left origin). -/
structure PageRect where
  x : ℚ
  y : ℚ
  width : ℚ
  height : ℚ
  deriving Repr, DecidableEq

/-- `convertCoordinates` from `backend/utils/pdfUtils.js`: percentage
coordinates (top-left origin) to PDF points (bottom-left origin), flipping
the Y axis. -/
def convertCoordinates (field : Field) (pdfWidth pdfHeight : ℚ) : PageRect :=
  let xInPoints := (field.x / 100) * pdfWidth
  let widthInPoints := (field.width / 100) * pdfWidth
  let heightInPoints := (field.height / 100) * pdfHeight
  let yInPoints := pdfHeight - ((field.y / 100) * pdfHeight) - heightInPoints
  { x := xInPoints, y := yInPoints, width := widthInPoints, height := heightInPoints }

/-- Result of the aspect-fit computation. -/
structure FitResult where
  width : ℚ
  height : ℚ
  offsetX : ℚ
  offsetY : ℚ
  deriving Repr, DecidableEq

/-- `calculateAspectRatioDimensions` from `backend/utils/pdfUtils.js`:
scale content into a box without distortion and compute centering offsets. -/
def calculateAspectRatioDimensions (imageWidth imageHeight boxWidth boxHeight : ℚ) :
    FitResult :=
  let imageAspect := imageWidth / imageHeight
  let boxAspect := boxWidth / boxHeight
  if imageAspect > boxAspect then
    let finalWidth := boxWidth
    let finalHeight := boxWidth / imageAspect
    { width := finalWidth, height := finalHeight,
      offsetX := (boxWidth - finalWidth) / 2, offsetY := (boxHeight - finalHeight) / 2 }
  else
    let finalHeight := boxHeight
    let finalWidth := boxHeight * imageAspect
    { width := finalWidth, height := finalHeight,
      offsetX := (boxWidth - finalWidth) / 2, offsetY := (boxHeight - finalHeight) / 2 }

/-- JS `String.split` with a single-character separator, over the
character list: `"".split(c)` is `[""]`, and every separator occurrence
starts a new part. -/
def splitOnChar (c : Char) : List Char → List (List Char)
  | [] => [[]]
  | a :: rest =>
    match splitOnChar c rest with
    | [] => if a = c then [[], []] else [[a]]
    | g :: gs => if a = c then [] :: g :: gs else (a :: g) :: gs

/-- `base64FromDataURL` from `backend/utils/pdfUtils.js`: split the data
URL on `','`; exactly two parts yield the payload, and the JS throw on any
other shape is modelled as `none`. -/
def base64FromDataURL (dataURL : String) : Option String :=
  match (splitOnChar ',' dataURL.data).map String.mk with
  | [_, b64] => some b64
  | _ => none

/-- `validateFieldCoordinates` from `backend/utils/pdfUtils.js`. -/
def validateFieldCoordinates (field : Field) : Bool :=
  decide (0 ≤ field.x ∧ field.x ≤ 100 ∧ 0 ≤ field.y ∧ field.y ≤ 100 ∧
    0 < field.width ∧ field.width ≤ 100 ∧ 0 < field.height ∧ field.height ≤ 100)

/-- C1: `convertCoordinates` returns `width = field.width/100 * pageWidth`,
`height = field.height/100 * pageHeight`, `x = field.x/100 * pageWidth`,
`y = pageHeight − field.y/100 * pageHeight − height`; and the field
`{x:10, y:20, width:20, height:10}` on a 600×800 page maps to
`{x:60, y:560, width:120, height:80}`. -/
theorem c1_convertCoordinates_formula (field : Field) (pdfWidth pdfHeight : ℚ) :
    convertCoordinates field pdfWidth pdfHeight =
      { x := field.x / 100 * pdfWidth,
        y := pdfHeight - field.y / 100 * pdfHeight - field.height / 100 * pdfHeight,
        width := field.width / 100 * pdfWidth,
        height := field.height / 100 * pdfHeight } ∧
    convertCoordinates
      { id := "f1", type := "text", x := 10, y := 20, width := 20, height := 10,
        value := none, options := none } 600 800 =
      { x := 60, y := 560, width := 120, height := 80 } :=
  ⟨rfl, by simp only [convertCoordinates, PageRect.mk.injEq]; norm_num⟩

/-- Type-specific default footprints from `PDFViewer.handleDrop`
(`fieldSizes`, with the generic `{width:20, height:10}` fallback). -/
def fieldSizes (fieldType : String) : ℚ × ℚ :=
  if fieldType == "signature" then (25, 15)
  else if fieldType == "text" then (20, 8)
  else if fieldType == "image" then (15, 15)
  else if fieldType == "date" then (18, 8)
  else if fieldType == "radio" then (12, 12)
  else (20, 10)

/-- `handleDrop` from `PDFViewer.jsx`: convert the drop point to
percentages of the container rect and build the new field. The generated
`field-${Date.now()}` id is passed in as `fieldId`. -/
def handleDrop (clientX clientY rectLeft rectTop rectWidth rectHeight : ℚ)
    (fieldType fieldId : String) : Field :=
  let x := ((clientX - rectLeft) / rectWidth) * 100
  let y := ((clientY - rectTop) / rectHeight) * 100
  let size := fieldSizes fieldType
  { id := fieldId, type := fieldType,
    x := min x (100 - size.1),
    y := min y (100 - size.2),
    width := size.1, height := size.2,
    value := if fieldType == "radio" then some "option1" else none,
    options := if fieldType == "radio" then some ["Option 1", "Option 2", "Option 3"] else none }

/-- `handleMouseMove` from `DraggableField` (drag move): recompute the
field position as container percentages and clamp each axis to
`[0, 100 − size]`; returns the `{x, y}` update passed to `onUpdate`. -/
def handleMouseMove (clientX clientY parentLeft parentTop parentWidth parentHeight
    dragStartX dragStartY : ℚ) (field : Field) : ℚ × ℚ :=
  let newX := clientX - parentLeft - dragStartX
  let newY := clientY - parentTop - dragStartY
  let percentX := (newX / parentWidth) * 100
  let percentY := (newY / parentHeight) * 100
  (max 0 (min percentX (100 - field.width)), max 0 (min percentY (100 - field.height)))

/-- The update object produced by a resize move: it carries only `width`
and `height`, mirroring the object literal passed to `onUpdate`. -/
structure ResizeUpdate where
  width : ℚ
  height : ℚ
  deriving Repr, DecidableEq

/-- `handleResizeMove` from `DraggableField`: recompute width/height from
the pointer's distance to the field's fixed top-left corner, as container
percentages, clamped to `[5, 50]` and `[3, 30]`. -/
def handleResizeMove (clientX clientY fieldLeft fieldTop parentWidth parentHeight : ℚ) :
    ResizeUpdate :=
  let newWidth := ((clientX - fieldLeft) / parentWidth) * 100
  let newHeight := ((clientY - fieldTop) / parentHeight) * 100
  { width := max 5 (min newWidth 50), height := max 3 (min newHeight 30) }

/-- `updateField` merge from `App.jsx` (`{ ...f, ...updates }`) applied to
a resize update: only `width` and `height` are replaced. -/
def applyResizeUpdate (f : Field) (u : ResizeUpdate) : Field :=
  { f with width := u.width, height := u.height }

/-- The page-to-percentage inverse of `convertCoordinates` implied by the
spec's round-trip property (the repository has no explicit inverse): undo
the scaling and the Y-axis flip. -/
def toPercentSpace (r : PageRect) (pdfWidth pdfHeight : ℚ) : PageRect :=
  { x := r.x / pdfWidth * 100,
    y := (pdfHeight - r.y - r.height) / pdfHeight * 100,
    width := r.width / pdfWidth * 100,
    height := r.height / pdfHeight * 100 }

/-- Every default footprint is at most 100 on each axis. -/
theorem fieldSizes_le_100 (fieldType : String) :
    (fieldSizes fieldType).1 ≤ 100 ∧ (fieldSizes fieldType).2 ≤ 100 := by
  unfold fieldSizes
  split <;> try norm_num
  split <;> try norm_num
  split <;> try norm_num
  split <;> try norm_num
  split <;> norm_num

/-- C3 counterexample: a drop 50px left of a 500px-wide container converts
to `x = −10`, and `Math.min(x, 100 − width)` leaves it negative — the
resulting field's footprint is outside the container, so the drop is not
clamped into `[0, 100 − defaultWidth]` as claimed. -/
theorem c3_counterexample :
    (handleDrop (-50) 100 0 0 500 600 "text" "f1").x = -10 ∧ ¬ (0 : ℚ) ≤ -10 := by
  have hfs : fieldSizes "text" = (20, 8) := rfl
  constructor
  · simp only [handleDrop, hfs]
    norm_num
  · norm_num

/-- C3 amended: `handleDrop` clamps only from above — `x ≤ 100 − defaultWidth`
and `y ≤ 100 − defaultHeight` always hold (so drops beyond the right/bottom
edges are pulled fully inside, and a drop whose converted percentage is
nonnegative yields a footprint fully inside the container), but there is no
lower clamp: a drop left of or above the container yields a negative
coordinate. Out-of-bounds drops are never rejected. -/
theorem c3_amended (clientX clientY rectLeft rectTop rectWidth rectHeight : ℚ)
    (fieldType fieldId : String)
    (hrw : 0 < rectWidth) (hrh : 0 < rectHeight) :
    (handleDrop clientX clientY rectLeft rectTop rectWidth rectHeight fieldType fieldId).x
      ≤ 100 - (fieldSizes fieldType).1 ∧
    (handleDrop clientX clientY rectLeft rectTop rectWidth rectHeight fieldType fieldId).y
      ≤ 100 - (fieldSizes fieldType).2 ∧
    (handleDrop clientX clientY rectLeft rectTop rectWidth rectHeight fieldType fieldId).width
      = (fieldSizes fieldType).1 ∧
    (handleDrop clientX clientY rectLeft rectTop rectWidth rectHeight fieldType fieldId).height
      = (fieldSizes fieldType).2 ∧
    (0 ≤ clientX - rectLeft →
      0 ≤ (handleDrop clientX clientY rectLeft rectTop rectWidth rectHeight fieldType fieldId).x) ∧
    (0 ≤ clientY - rectTop →
      0 ≤ (handleDrop clientX clientY rectLeft rectTop rectWidth rectHeight fieldType fieldId).y) := by
  obtain ⟨hs1, hs2⟩ := fieldSizes_le_100 fieldType
  simp only [handleDrop]
  refine ⟨min_le_right _ _, min_le_right _ _, trivial, trivial, ?_, ?_⟩
  · intro hx
    have hpx : 0 ≤ (clientX - rectLeft) / rectWidth * 100 := by positivity
    exact le_min hpx (by linarith)
  · intro hy
    have hpy : 0 ≤ (clientY - rectTop) / rectHeight * 100 := by positivity
    exact le_min hpy (by linarith)

/-- C3 amended witness: concrete in-bounds drop of a text field at pixel
(100, 100) in a 500×600 container lands fully inside `[0, 80] × [0, 92]`. -/
theorem c3_amended_witness :
    (handleDrop 100 100 0 0 500 600 "text" "f1").x ≤ 100 - (fieldSizes "text").1 ∧
    0 ≤ (handleDrop 100 100 0 0 500 600 "text" "f1").x ∧
    0 ≤ (handleDrop 100 100 0 0 500 600 "text" "f1").y := by
  have h := c3_amended 100 100 0 0 500 600 "text" "f1" (by norm_num) (by norm_num)
  exact ⟨h.1, h.2.2.2.2.1 (by norm_num), h.2.2.2.2.2 (by norm_num)⟩

/-- C4: for any pointer position and container rect (of positive size) and
any field with `width, height ∈ (0, 100]`, the drag-move update satisfies
`0 ≤ x ≤ 100 − width` and `0 ≤ y ≤ 100 − height`: a dragged field can never
end up even partially outside the container. -/
theorem c4_drag_clamped (clientX clientY parentLeft parentTop parentWidth parentHeight
    dragStartX dragStartY : ℚ) (field : Field)
    (hpw : 0 < parentWidth) (hph : 0 < parentHeight)
    (hw0 : 0 < field.width) (hw1 : field.width ≤ 100)
    (hh0 : 0 < field.height) (hh1 : field.height ≤ 100) :
    0 ≤ (handleMouseMove clientX clientY parentLeft parentTop parentWidth parentHeight
        dragStartX dragStartY field).1 ∧
    (handleMouseMove clientX clientY parentLeft parentTop parentWidth parentHeight
        dragStartX dragStartY field).1 ≤ 100 - field.width ∧
    0 ≤ (handleMouseMove clientX clientY parentLeft parentTop parentWidth parentHeight
        dragStartX dragStartY field).2 ∧
    (handleMouseMove clientX clientY parentLeft parentTop parentWidth parentHeight
        dragStartX dragStartY field).2 ≤ 100 - field.height := by
  simp only [handleMouseMove]
  refine ⟨le_max_left _ _, max_le (by linarith) (min_le_right _ _),
    le_max_left _ _, max_le (by linarith) (min_le_right _ _)⟩

/-- C4 witness: a pointer far outside a 500×600 container dragging a
20×10 field still yields a position inside `[0, 80] × [0, 90]`. -/
theorem c4_drag_clamped_witness :
    0 ≤ (handleMouseMove 10000 (-10000) 0 0 500 600 5 5
      { id := "f1", type := "text", x := 10, y := 20, width := 20, height := 10,
        value := none, options := none }).1 ∧
    (handleMouseMove 10000 (-10000) 0 0 500 600 5 5
      { id := "f1", type := "text", x := 10, y := 20, width := 20, height := 10,
        value := none, options := none }).1 ≤ 100 - 20 := by
  have h := c4_drag_clamped 10000 (-10000) 0 0 500 600 5 5
    { id := "f1", type := "text", x := 10, y := 20, width := 20, height := 10,
      value := none, options := none }
    (by norm_num) (by norm_num) (by norm_num) (by norm_num) (by norm_num) (by norm_num)
  exact ⟨h.1, h.2.1⟩

/-- C8: a resize move clamps the new width to the type-independent global
interval `[5, 50]` and the new height to `[3, 30]`, for a positive-size
container; the update carries only `width` and `height`, so applying it
never changes the field's `x` or `y`. -/
theorem c8_resize_bounds (clientX clientY fieldLeft fieldTop parentWidth parentHeight : ℚ)
    (f : Field) (hpw : 0 < parentWidth) (hph : 0 < parentHeight) :
    (applyResizeUpdate f
        (handleResizeMove clientX clientY fieldLeft fieldTop parentWidth parentHeight)).x = f.x ∧
    (applyResizeUpdate f
        (handleResizeMove clientX clientY fieldLeft fieldTop parentWidth parentHeight)).y = f.y ∧
    5 ≤ (handleResizeMove clientX clientY fieldLeft fieldTop parentWidth parentHeight).width ∧
    (handleResizeMove clientX clientY fieldLeft fieldTop parentWidth parentHeight).width ≤ 50 ∧
    3 ≤ (handleResizeMove clientX clientY fieldLeft fieldTop parentWidth parentHeight).height ∧
    (handleResizeMove clientX clientY fieldLeft fieldTop parentWidth parentHeight).height ≤ 30 := by
  simp only [handleResizeMove, applyResizeUpdate]
  refine ⟨trivial, trivial, le_max_left _ _, max_le (by norm_num) (min_le_right _ _),
    le_max_left _ _, max_le (by norm_num) (min_le_right _ _)⟩

/-- C8 witness: a concrete resize move in a 500×600 container keeps the
field's position and lands in the global size bounds. -/
theorem c8_resize_bounds_witness :
    (applyResizeUpdate
        { id := "f1", type := "text", x := 10, y := 20, width := 20, height := 10,
          value := none, options := none }
        (handleResizeMove 490 10 40 5 500 600)).x = 10 ∧
    5 ≤ (handleResizeMove 490 10 40 5 500 600).width ∧
    (handleResizeMove 490 10 40 5 500 600).width ≤ 50 := by
  have h := c8_resize_bounds 490 10 40 5 500 600
    { id := "f1", type := "text", x := 10, y := 20, width := 20, height := 10,
      value := none, options := none } (by norm_num) (by norm_num)
  exact ⟨h.1, h.2.2.1, h.2.2.2.1⟩

/-- C6: the coordinate transform is invertible — applying
`convertCoordinates` and then the page-to-percentage inverse recovers the
original `x`, `y`, `width`, `height` exactly, for any positive page size. -/
theorem c6_roundtrip (field : Field) (pdfWidth pdfHeight : ℚ)
    (hw : 0 < pdfWidth) (hh : 0 < pdfHeight) :
    (toPercentSpace (convertCoordinates field pdfWidth pdfHeight) pdfWidth pdfHeight).x
      = field.x ∧
    (toPercentSpace (convertCoordinates field pdfWidth pdfHeight) pdfWidth pdfHeight).y
      = field.y ∧
    (toPercentSpace (convertCoordinates field pdfWidth pdfHeight) pdfWidth pdfHeight).width
      = field.width ∧
    (toPercentSpace (convertCoordinates field pdfWidth pdfHeight) pdfWidth pdfHeight).height
      = field.height := by
  simp only [toPercentSpace, convertCoordinates]
  refine ⟨?_, ?_, ?_, ?_⟩ <;> field_simp <;> ring

/-- C6 witness: the round trip at the example field `{x:10, y:20, width:20,
height:10}` on a 600×800 page recovers the original coordinates. -/
theorem c6_roundtrip_witness :
    (toPercentSpace (convertCoordinates
      { id := "f1", type := "text", x := 10, y := 20, width := 20, height := 10,
        value := none, options := none } 600 800) 600 800).x = 10 ∧
    (toPercentSpace (convertCoordinates
      { id := "f1", type := "text", x := 10, y := 20, width := 20, height := 10,
        value := none, options := none } 600 800) 600 800).y = 20 :=
  ⟨(c6_roundtrip _ 600 800 (by norm_num) (by norm_num)).1,
   (c6_roundtrip _ 600 800 (by norm_num) (by norm_num)).2.1⟩

/-- A primitive drawing operation emitted onto the PDF page by the
`/sign-pdf` handler (`pdf-lib` calls `drawImage`, `drawText`, `drawCircle`). -/
inductive DrawOp where
  | drawImage (x y width height : ℚ)
  | drawText (text : String) (x y size : ℚ) (maxWidth : Option ℚ)
  | drawCircle (x y size : ℚ) (filled : Bool)
  deriving Repr, DecidableEq

/-- JS `String.replace(pat, sub)` with a string pattern replaces only the
first occurrence. -/
def replaceFirst (s pat sub : String) : String :=
  match s.splitOn pat with
  | [] => s
  | [x] => x
  | x :: y :: rest => x ++ sub ++ String.intercalate pat (y :: rest)

/-- JS `parseInt` on the option-key strings: parse the leading run of
digits, `none` when there is none (JS `NaN`). -/
def jsParseInt (s : String) : Option Nat :=
  let ds := s.data.takeWhile Char.isDigit
  if ds.isEmpty then none
  else some (ds.foldl (fun n c => n * 10 + (c.toNat - 48)) 0)

/-- The radio label lookup `radioOptions[parseInt(selectedValue.replace
('option','')) - 1] || radioOptions[0]`: `none` models the JS `undefined`
that a subsequent `drawText` would throw on (only possible when
`radioOptions` is empty). -/
def radioDisplayText (radioOptions : List String) (selectedValue : String) : Option String :=
  let byIndex : Option String :=
    match jsParseInt (replaceFirst selectedValue "option" "") with
    | some n => if 1 ≤ n then radioOptions.get? (n - 1) else none
    | none => none
  match byIndex with
  | some s => if s == "" then radioOptions.get? 0 else some s
  | none => radioOptions.get? 0

/-- The single `drawImage` call for an embedded image of intrinsic size
`wh`, aspect-fitted into the transformed box. -/
def imgOps (coords : PageRect) (wh : ℚ × ℚ) : List DrawOp :=
  let dims := calculateAspectRatioDimensions wh.1 wh.2 coords.width coords.height
  [DrawOp.drawImage (coords.x + dims.offsetX) (coords.y + dims.offsetY) dims.width dims.height]

/-- One iteration of the `/sign-pdf` field loop: the draw operations
emitted for `field` onto a `pdfWidth × pdfHeight` page. `decodePng` and
`decodeJpg` model `pdfDoc.embedPng` / `embedJpg`, returning the intrinsic
image size on success; `today` models `new Date().toISOString()`'s date
part. `none` models an uncaught exception (the radio branch's
`drawText(undefined)` when the options list is empty); caught per-field
errors (bad data URL, both codecs failing) yield `some []` — the field is
skipped and the loop continues. -/
def processField (decodePng decodeJpg : String → Option (ℚ × ℚ)) (today : String)
    (pdfWidth pdfHeight : ℚ) (field : Field) : Option (List DrawOp) :=
  if falsyStr field.value && field.type != "radio" then some []
  else
    let coords := convertCoordinates field pdfWidth pdfHeight
    if field.type == "signature" || field.type == "image" then
      some (match field.value with
      | none => []
      | some v =>
        match base64FromDataURL v with
        | none => []
        | some b64 =>
          match decodePng b64 with
          | some wh => imgOps coords wh
          | none =>
            match decodeJpg b64 with
            | some wh => imgOps coords wh
            | none => [])
    else if field.type == "text" then
      let textValue := match field.value with
        | some v => if v == "" then "Text Field" else v
        | none => "Text Field"
      let fontSize := min (coords.height * (3 / 5)) 12
      some [DrawOp.drawText textValue (coords.x + 4)
        (coords.y + coords.height / 2 - fontSize / 3) fontSize (some (coords.width - 8))]
    else if field.type == "date" then
      let dateValue := match field.value with
        | some v => if v == "" then today else v
        | none => today
      let fontSize := min (coords.height * (3 / 5)) 10
      some [DrawOp.drawText dateValue (coords.x + 4)
        (coords.y + coords.height / 2 - fontSize / 3) fontSize none]
    else if field.type == "radio" then
      let radioOptions := field.options.getD ["Option 1", "Option 2", "Option 3"]
      let selectedValue := match field.value with
        | some v => if v == "" then "option1" else v
        | none => "option1"
      match radioDisplayText radioOptions selectedValue with
      | none => none
      | some displayText =>
        let fontSize := min (coords.height * (1 / 2)) 10
        let circleRadius := min coords.height coords.width * (3 / 20)
        let circleX := coords.x + circleRadius + 4
        let circleY := coords.y + coords.height / 2
        some ([DrawOp.drawCircle circleX circleY circleRadius false] ++
          (if falsyStr field.value then []
           else [DrawOp.drawCircle circleX circleY (circleRadius * (7 / 20)) true]) ++
          [DrawOp.drawText displayText (coords.x + circleRadius * 2 + 10)
            (coords.y + coords.height / 2 - fontSize / 3) fontSize
            (some (coords.width - circleRadius * 2 - 15))])
    else some []

/-- The full field loop, concatenating each field's draw operations in
order; `none` as soon as a field throws an uncaught exception. -/
def processFields (decodePng decodeJpg : String → Option (ℚ × ℚ)) (today : String)
    (pdfWidth pdfHeight : ℚ) : List Field → Option (List DrawOp)
  | [] => some []
  | f :: rest => do
    let ops ← processField decodePng decodeJpg today pdfWidth pdfHeight f
    let more ← processFields decodePng decodeJpg today pdfWidth pdfHeight rest
    pure (ops ++ more)

/-- The stored document record, reduced to what the handler reads from it:
the first page's dimensions in points. -/
structure StoredDoc where
  pdfWidth : ℚ
  pdfHeight : ℚ
  deriving Repr, DecidableEq

/-- Externally visible effects of the handler, in order: the database
lookup, reading the stored PDF from disk, writing the signed PDF, and
updating the document record. -/
inductive Effect where
  | dbRead
  | fileRead
  | fileWrite
  | dbWrite
  deriving Repr, DecidableEq

/-- Outcome of a `/sign-pdf` request: the 400 responses for a missing
document id / missing or empty field list and for a field failing
coordinate validation, the 404 for an unknown document, the 500 raised by
an uncaught per-field exception, or the signed page's draw operations. -/
inductive SignResult where
  | missingRequest
  | invalidCoordinates (fieldType : String)
  | documentNotFound
  | serverError
  | ok (ops : List DrawOp)
  deriving Repr, DecidableEq

/-- The `/sign-pdf` handler: structural validation, per-field coordinate
validation (first failure wins), document lookup, field processing, and
persistence — returning the outcome together with the effect trace. -/
def signPdf (documentId : Option String) (fields : Option (List Field))
    (store : String → Option StoredDoc)
    (decodePng decodeJpg : String → Option (ℚ × ℚ)) (today : String) :
    SignResult × List Effect :=
  match documentId, fields with
  | some docId, some fieldList =>
    if docId == "" || fieldList.isEmpty then (SignResult.missingRequest, [])
    else
      match fieldList.find? (fun f => ! validateFieldCoordinates f) with
      | some f => (SignResult.invalidCoordinates f.type, [])
      | none =>
        match store docId with
        | none => (SignResult.documentNotFound, [Effect.dbRead])
        | some doc =>
          match processFields decodePng decodeJpg today doc.pdfWidth doc.pdfHeight fieldList with
          | none => (SignResult.serverError, [Effect.dbRead, Effect.fileRead])
          | some ops =>
            (SignResult.ok ops,
             [Effect.dbRead, Effect.fileRead, Effect.fileWrite, Effect.dbWrite])
  | _, _ => (SignResult.missingRequest, [])

/-- Helper: in the fit-to-width branch the derived height stays within the
box, and in the fit-to-height branch the derived width does. -/
theorem aspectFit_shape (imageWidth imageHeight boxWidth boxHeight : ℚ)
    (hiw : 0 < imageWidth) (hih : 0 < imageHeight)
    (hbw : 0 < boxWidth) (hbh : 0 < boxHeight) :
    (calculateAspectRatioDimensions imageWidth imageHeight boxWidth boxHeight).width ≤ boxWidth ∧
    (calculateAspectRatioDimensions imageWidth imageHeight boxWidth boxHeight).height ≤ boxHeight ∧
    ((calculateAspectRatioDimensions imageWidth imageHeight boxWidth boxHeight).width = boxWidth ∨
     (calculateAspectRatioDimensions imageWidth imageHeight boxWidth boxHeight).height = boxHeight) := by
  have ha : 0 < imageWidth / imageHeight := div_pos hiw hih
  simp only [calculateAspectRatioDimensions]
  split_ifs with h
  · refine ⟨le_refl _, ?_, Or.inl rfl⟩
    have hlt : boxWidth / (imageWidth / imageHeight) < boxHeight := by
      rw [div_lt_iff₀ ha]
      calc boxWidth = boxWidth / boxHeight * boxHeight := by field_simp
        _ < boxHeight * (imageWidth / imageHeight) := by
            rw [mul_comm boxHeight]
            exact mul_lt_mul_of_pos_right h hbh
    exact le_of_lt hlt
  · push_neg at h
    refine ⟨?_, le_refl _, Or.inr rfl⟩
    calc boxHeight * (imageWidth / imageHeight)
        ≤ boxHeight * (boxWidth / boxHeight) := mul_le_mul_of_nonneg_left h (le_of_lt hbh)
      _ = boxWidth := by field_simp

/-- C5: for all strictly positive content and box dimensions, the fitted
size never exceeds the box, the content aspect ratio is preserved exactly,
and both centering offsets are nonnegative. -/
theorem c5_aspect_fit (imageWidth imageHeight boxWidth boxHeight : ℚ)
    (hiw : 0 < imageWidth) (hih : 0 < imageHeight)
    (hbw : 0 < boxWidth) (hbh : 0 < boxHeight) :
    (calculateAspectRatioDimensions imageWidth imageHeight boxWidth boxHeight).width ≤ boxWidth ∧
    (calculateAspectRatioDimensions imageWidth imageHeight boxWidth boxHeight).height ≤ boxHeight ∧
    (calculateAspectRatioDimensions imageWidth imageHeight boxWidth boxHeight).width /
      (calculateAspectRatioDimensions imageWidth imageHeight boxWidth boxHeight).height =
      imageWidth / imageHeight ∧
    0 ≤ (calculateAspectRatioDimensions imageWidth imageHeight boxWidth boxHeight).offsetX ∧
    0 ≤ (calculateAspectRatioDimensions imageWidth imageHeight boxWidth boxHeight).offsetY := by
  obtain ⟨hwle, hhle, -⟩ :=
    aspectFit_shape imageWidth imageHeight boxWidth boxHeight hiw hih hbw hbh
  have ha : 0 < imageWidth / imageHeight := div_pos hiw hih
  refine ⟨hwle, hhle, ?_, ?_, ?_⟩
  · simp only [calculateAspectRatioDimensions]
    split_ifs with h
    · rw [div_div_eq_mul_div, mul_comm, mul_div_assoc, div_self (ne_of_gt hbw), mul_one]
    · rw [mul_comm, mul_div_assoc, div_self (ne_of_gt hbh), mul_one]
  · revert hwle
    simp only [calculateAspectRatioDimensions]
    split_ifs <;> intro hwle <;> simp only [] <;> linarith
  · revert hhle
    simp only [calculateAspectRatioDimensions]
    split_ifs <;> intro hhle <;> simp only [] <;> linarith

/-- C5 witness: `fit(400, 200, 100, 100)` returns
`{width:100, height:50, offsetX:0, offsetY:25}` and satisfies the bounds. -/
theorem c5_aspect_fit_witness :
    calculateAspectRatioDimensions 400 200 100 100 =
      { width := 100, height := 50, offsetX := 0, offsetY := 25 } ∧
    (calculateAspectRatioDimensions 400 200 100 100).width ≤ 100 ∧
    (calculateAspectRatioDimensions 400 200 100 100).height ≤ 100 ∧
    (calculateAspectRatioDimensions 400 200 100 100).width /
      (calculateAspectRatioDimensions 400 200 100 100).height = 400 / 200 := by
  have h := c5_aspect_fit 400 200 100 100 (by norm_num) (by norm_num) (by norm_num) (by norm_num)
  refine ⟨?_, h.1, h.2.1, h.2.2.1⟩
  simp only [calculateAspectRatioDimensions, FitResult.mk.injEq]
  norm_num

/-- C10: the aspect-fit result always touches the box on at least one axis:
the smaller centering offset is zero and, equivalently, the fitted width
equals the box width or the fitted height equals the box height. -/
theorem c10_touches_box (imageWidth imageHeight boxWidth boxHeight : ℚ)
    (hiw : 0 < imageWidth) (hih : 0 < imageHeight)
    (hbw : 0 < boxWidth) (hbh : 0 < boxHeight) :
    min (calculateAspectRatioDimensions imageWidth imageHeight boxWidth boxHeight).offsetX
      (calculateAspectRatioDimensions imageWidth imageHeight boxWidth boxHeight).offsetY = 0 ∧
    ((calculateAspectRatioDimensions imageWidth imageHeight boxWidth boxHeight).width = boxWidth ∨
     (calculateAspectRatioDimensions imageWidth imageHeight boxWidth boxHeight).height = boxHeight) := by
  obtain ⟨hwle, hhle, hor⟩ :=
    aspectFit_shape imageWidth imageHeight boxWidth boxHeight hiw hih hbw hbh
  refine ⟨?_, hor⟩
  have hox : 0 ≤ (calculateAspectRatioDimensions imageWidth imageHeight boxWidth boxHeight).offsetX := by
    revert hwle
    simp only [calculateAspectRatioDimensions]
    split_ifs <;> intro hwle <;> simp only [] <;> linarith
  have hoy : 0 ≤ (calculateAspectRatioDimensions imageWidth imageHeight boxWidth boxHeight).offsetY := by
    revert hhle
    simp only [calculateAspectRatioDimensions]
    split_ifs <;> intro hhle <;> simp only [] <;> linarith
  have hzero :
      (calculateAspectRatioDimensions imageWidth imageHeight boxWidth boxHeight).offsetX = 0 ∨
      (calculateAspectRatioDimensions imageWidth imageHeight boxWidth boxHeight).offsetY = 0 := by
    rcases hor with hw | hh
    · left
      revert hw
      simp only [calculateAspectRatioDimensions]
      split_ifs <;> intro hw <;> simp only [] at hw ⊢ <;> linarith
    · right
      revert hh
      simp only [calculateAspectRatioDimensions]
      split_ifs <;> intro hh <;> simp only [] at hh ⊢ <;> linarith
  rcases hzero with hz | hz
  · rw [hz]
    exact min_eq_left hoy
  · rw [hz]
    exact min_eq_right hox

/-- C10 witness: a tall 100×400 image in a 100×100 box touches the box
vertically — the smaller offset is zero and the fitted height is the box
height. -/
theorem c10_touches_box_witness :
    min (calculateAspectRatioDimensions 100 400 100 100).offsetX
      (calculateAspectRatioDimensions 100 400 100 100).offsetY = 0 ∧
    ((calculateAspectRatioDimensions 100 400 100 100).width = 100 ∨
     (calculateAspectRatioDimensions 100 400 100 100).height = 100) :=
  c10_touches_box 100 400 100 100 (by norm_num) (by norm_num) (by norm_num) (by norm_num)

/-- Helper: the radio label lookup succeeds whenever the options list is
nonempty. -/
theorem radioDisplayText_isSome (radioOptions : List String) (selectedValue : String)
    (h : radioOptions ≠ []) : (radioDisplayText radioOptions selectedValue).isSome = true := by
  obtain ⟨a, l, rfl⟩ : ∃ a l, radioOptions = a :: l := by
    cases radioOptions with
    | nil => exact absurd rfl h
    | cons a l => exact ⟨a, l, rfl⟩
  rw [radioDisplayText]
  split
  · split <;> simp
  · simp

/-- Helper: the radio label lookup never yields `undefined` on a nonempty
options list. -/
theorem radioDisplayText_ne_none (radioOptions : List String) (selectedValue : String)
    (h : radioOptions ≠ []) : radioDisplayText radioOptions selectedValue ≠ none := by
  intro hnone
  have hs := radioDisplayText_isSome radioOptions selectedValue h
  rw [hnone] at hs
  simp at hs

/-- Helper: `field.options || defaults` is a nonempty list unless the field
explicitly carries an empty options array. -/
theorem getD_options_ne_nil (o : Option (List String)) (h : o ≠ some []) :
    o.getD ["Option 1", "Option 2", "Option 3"] ≠ [] := by
  cases o with
  | none => simp
  | some l =>
    cases l with
    | nil => exact absurd rfl h
    | cons a t => simp

/-- C2 counterexample: a text field with `value = null` is caught by the
`!field.value && field.type !== 'radio'` skip check, so the handler draws
nothing for it — no placeholder string appears in the output, contradicting
the claim that a null text field still renders a placeholder. -/
theorem c2_counterexample :
    processField (fun _ => none) (fun _ => none) "2026-01-01" 600 800
      { id := "f1", type := "text", x := 10, y := 20, width := 20, height := 10,
        value := none, options := none } = some [] := rfl

/-- C2 amended: a field whose value is unset (null or empty) is skipped
entirely whenever its type is not `radio` — including `text`, which gets no
placeholder, and `signature`, which produces no drawn content — while a
`radio` field (with a non-explicitly-empty options list) always emits draw
operations even when unset. The pre-render skip fires exactly on unset
non-radio fields. -/
theorem c2_amended (f : Field) (d1 d2 : String → Option (ℚ × ℚ)) (today : String)
    (pdfWidth pdfHeight : ℚ) :
    (falsyStr f.value = true → f.type ≠ "radio" →
      processField d1 d2 today pdfWidth pdfHeight f = some []) ∧
    (f.type = "radio" → f.options ≠ some [] →
      ∃ ops, processField d1 d2 today pdfWidth pdfHeight f = some ops ∧ ops ≠ []) := by
  constructor
  · intro hval hty
    have hcond : (falsyStr f.value && f.type != "radio") = true := by
      simp [hval, bne_iff_ne, hty]
    simp [processField, hcond]
  · intro hty hopt
    have hne := getD_options_ne_nil f.options hopt
    rw [processField]
    split
    · rename_i hc
      rw [hty] at hc
      simp at hc
    · split
      · rename_i hc
        rw [hty] at hc
        simp at hc
      · split
        · rename_i hc
          rw [hty] at hc
          simp at hc
        · split
          · rename_i hc
            rw [hty] at hc
            simp at hc
          · have hsome := radioDisplayText_isSome
              (f.options.getD ["Option 1", "Option 2", "Option 3"])
              (match f.value with
                | some v => if v == "" then "option1" else v
                | none => "option1") hne
            rw [Option.isSome_iff_exists] at hsome
            obtain ⟨dt, hdt⟩ := hsome
            rw [hty]
            simp only [beq_self_eq_true, if_pos]
            rw [hdt]
            exact ⟨_, rfl, by simp⟩

/-- C2 amended witness: a signature field with `value = null` produces no
drawn content. -/
theorem c2_amended_witness :
    processField (fun _ => none) (fun _ => none) "2026-01-01" 600 800
      { id := "s1", type := "signature", x := 0, y := 0, width := 25, height := 15,
        value := none, options := none } = some [] :=
  (c2_amended _ _ _ _ _ _).1 rfl (by decide)

/-- The concatenation, in input order, of every field's draw operations
(with a throwing field contributing nothing); used to describe the output
of a successful render. -/
def fieldOpsList (d1 d2 : String → Option (ℚ × ℚ)) (today : String)
    (pdfWidth pdfHeight : ℚ) : List Field → List DrawOp
  | [] => []
  | f :: rest => (processField d1 d2 today pdfWidth pdfHeight f).getD [] ++
      fieldOpsList d1 d2 today pdfWidth pdfHeight rest

/-- Helper: processing a single field only throws in the radio branch with
an explicitly empty options list; everywhere else it yields a (possibly
empty) operation list. -/
theorem processField_isSome (d1 d2 : String → Option (ℚ × ℚ)) (today : String)
    (pw ph : ℚ) (f : Field) (h : f.type = "radio" → f.options ≠ some []) :
    (processField d1 d2 today pw ph f).isSome = true := by
  rw [processField]
  split
  · rfl
  · split
    · rfl
    · split
      · rfl
      · split
        · rfl
        · split
          · rename_i hrad
            have hty : f.type = "radio" := by simpa using hrad
            have hne := getD_options_ne_nil f.options (h hty)
            have hsome := radioDisplayText_isSome _
              (match f.value with
                | some v => if v == "" then "option1" else v
                | none => "option1") hne
            rw [Option.isSome_iff_exists] at hsome
            obtain ⟨dt, hdt⟩ := hsome
            simp only [hdt]
            rfl
          · rfl

/-- Helper: when no field throws, the loop succeeds and returns the
ordered concatenation of the per-field operations. -/
theorem processFields_eq (d1 d2 : String → Option (ℚ × ℚ)) (today : String)
    (pw ph : ℚ) (l : List Field)
    (h : ∀ f ∈ l, f.type = "radio" → f.options ≠ some []) :
    processFields d1 d2 today pw ph l = some (fieldOpsList d1 d2 today pw ph l) := by
  induction l with
  | nil => rfl
  | cons f rest ih =>
    have hf := processField_isSome d1 d2 today pw ph f (h f (List.mem_cons_self f rest))
    rw [Option.isSome_iff_exists] at hf
    obtain ⟨ops, hops⟩ := hf
    have hrest := ih (fun g hg => h g (List.mem_cons_of_mem f hg))
    simp [processFields, hops, hrest, fieldOpsList]

/-- C9: any sign-pdf request whose field list contains a field with `x` or
`y` outside `[0,100]` or `width`/`height` outside `(0,100]` is rejected
with a 400 validation error before the stored document is looked up or
read: no output is produced and no stored state changes (the effect trace
is empty). -/
theorem c9_invalid_rejected (documentId : Option String) (fieldList : List Field)
    (store : String → Option StoredDoc) (decodePng decodeJpg : String → Option (ℚ × ℚ))
    (today : String) (f : Field) (hmem : f ∈ fieldList)
    (hbad : validateFieldCoordinates f = false) :
    ((signPdf documentId (some fieldList) store decodePng decodeJpg today).1 =
        SignResult.missingRequest ∨
      ∃ t, (signPdf documentId (some fieldList) store decodePng decodeJpg today).1 =
        SignResult.invalidCoordinates t) ∧
    (signPdf documentId (some fieldList) store decodePng decodeJpg today).2 = [] := by
  cases documentId with
  | none => exact ⟨Or.inl rfl, rfl⟩
  | some docId =>
    rw [signPdf]
    split
    · exact ⟨Or.inl rfl, rfl⟩
    · split
      · exact ⟨Or.inr ⟨_, rfl⟩, rfl⟩
      · rename_i hfind
        exfalso
        have hnone := List.find?_eq_none.mp hfind f hmem
        rw [hbad] at hnone
        simp at hnone

/-- C9 witness: a request with a present document id and one field at
`x = −5` is rejected with empty effect trace. -/
theorem c9_invalid_rejected_witness :
    ((signPdf (some "doc1")
        (some [{ id := "b", type := "text", x := -5, y := 0, width := 20, height := 10,
                 value := some "hi", options := none }])
        (fun _ => some { pdfWidth := 600, pdfHeight := 800 })
        (fun _ => none) (fun _ => none) "2026-01-01").1 = SignResult.missingRequest ∨
      ∃ t, (signPdf (some "doc1")
        (some [{ id := "b", type := "text", x := -5, y := 0, width := 20, height := 10,
                 value := some "hi", options := none }])
        (fun _ => some { pdfWidth := 600, pdfHeight := 800 })
        (fun _ => none) (fun _ => none) "2026-01-01").1 = SignResult.invalidCoordinates t) ∧
    (signPdf (some "doc1")
        (some [{ id := "b", type := "text", x := -5, y := 0, width := 20, height := 10,
                 value := some "hi", options := none }])
        (fun _ => some { pdfWidth := 600, pdfHeight := 800 })
        (fun _ => none) (fun _ => none) "2026-01-01").2 = [] :=
  c9_invalid_rejected _ _ _ _ _ _ _ (List.mem_singleton.mpr rfl) (by decide)

/-- C7 counterexample: a structurally valid request (document id present,
field list nonempty) still fails the whole call — with a coordinate
validation error, not a per-field skip — when a field has `x = −5`; so the
whole render call does not fail only on missing id / missing or empty
fields. -/
theorem c7_counterexample :
    (signPdf (some "doc1")
        (some [{ id := "b", type := "text", x := -5, y := 0, width := 20, height := 10,
                 value := some "hi", options := none }])
        (fun _ => some { pdfWidth := 600, pdfHeight := 800 })
        (fun _ => none) (fun _ => none) "2026-01-01").1 =
      SignResult.invalidCoordinates "text" ∧
    ("doc1" == "") = false ∧
    ([({ id := "b", type := "text", x := -5, y := 0, width := 20, height := 10,
         value := some "hi", options := none } : Field)].isEmpty) = false := by
  refine ⟨?_, rfl, rfl⟩
  have hv : validateFieldCoordinates
      { id := "b", type := "text", x := -5, y := 0, width := 20, height := 10,
        value := some "hi", options := none } = false := by decide
  rw [signPdf]
  simp [List.find?, hv]

/-- C7 amended: the whole render call fails only on a structurally invalid
request (missing document id, missing or empty field list), a field failing
coordinate validation, an unknown document, or an uncaught per-field draw
exception (a radio field posted with an explicitly empty options list); in
every other case the call succeeds regardless of image decode failures, and
a signature/image field whose payload neither the PNG codec nor the JPG
codec can decode contributes no draw operations while every other field's
operations still appear, in order, in the output. -/
theorem c7_amended (docId : String) (fieldList : List Field)
    (store : String → Option StoredDoc) (d1 d2 : String → Option (ℚ × ℚ))
    (today : String) (doc : StoredDoc)
    (hid : docId ≠ "") (hne : fieldList ≠ [])
    (hvalid : ∀ f ∈ fieldList, validateFieldCoordinates f = true)
    (hfound : store docId = some doc)
    (hopts : ∀ f ∈ fieldList, f.type = "radio" → f.options ≠ some []) :
    signPdf (some docId) (some fieldList) store d1 d2 today =
      (SignResult.ok (fieldOpsList d1 d2 today doc.pdfWidth doc.pdfHeight fieldList),
       [Effect.dbRead, Effect.fileRead, Effect.fileWrite, Effect.dbWrite]) ∧
    (∀ f ∈ fieldList, (f.type = "signature" ∨ f.type = "image") →
      ∀ v b64, f.value = some v → base64FromDataURL v = some b64 →
        d1 b64 = none → d2 b64 = none →
        processField d1 d2 today doc.pdfWidth doc.pdfHeight f = some []) := by
  constructor
  · have hcond : (docId == "" || fieldList.isEmpty) = false := by
      simp [beq_eq_false_iff_ne, hid, hne]
    have hfind : fieldList.find? (fun f => ! validateFieldCoordinates f) = none := by
      rw [List.find?_eq_none]
      intro g hg
      simp [hvalid g hg]
    have hproc := processFields_eq d1 d2 today doc.pdfWidth doc.pdfHeight fieldList hopts
    rw [signPdf]
    rw [hcond]
    simp only [Bool.false_eq_true, if_false]
    rw [hfind, hfound]
    dsimp only
    rw [hproc]
  · intro f hf htype v b64 hv hb64 hd1 hd2
    rw [processField]
    split
    · rfl
    · have htyb : (f.type == "signature" || f.type == "image") = true := by
        rcases htype with h | h <;> simp [h]
      rw [htyb]
      simp only [if_true]
      rw [hv]
      simp only [hb64, hd1, hd2]

/-- C7 amended witness: a valid two-field request — a filled text field and
an image field whose payload decodes under neither codec — succeeds, the
image field contributes nothing, and the text field is still drawn. -/
theorem c7_amended_witness :
    (signPdf (some "d1")
        (some [{ id := "t1", type := "text", x := 10, y := 20, width := 20, height := 10,
                 value := some "hello", options := none },
               { id := "i1", type := "image", x := 30, y := 40, width := 15, height := 15,
                 value := some "data:image/png;base64,XXXX", options := none }])
        (fun _ => some { pdfWidth := 600, pdfHeight := 800 })
        (fun _ => none) (fun _ => none) "2026-01-01")
      = (SignResult.ok (fieldOpsList (fun _ => none) (fun _ => none) "2026-01-01" 600 800
          [{ id := "t1", type := "text", x := 10, y := 20, width := 20, height := 10,
             value := some "hello", options := none },
           { id := "i1", type := "image", x := 30, y := 40, width := 15, height := 15,
             value := some "data:image/png;base64,XXXX", options := none }]),
         [Effect.dbRead, Effect.fileRead, Effect.fileWrite, Effect.dbWrite]) ∧
    processField (fun _ => none) (fun _ => none) "2026-01-01" 600 800
      { id := "i1", type := "image", x := 30, y := 40, width := 15, height := 15,
        value := some "data:image/png;base64,XXXX", options := none } = some [] := by
  have h := c7_amended "d1"
    [{ id := "t1", type := "text", x := 10, y := 20, width := 20, height := 10,
       value := some "hello", options := none },
     { id := "i1", type := "image", x := 30, y := 40, width := 15, height := 15,
       value := some "data:image/png;base64,XXXX", options := none }]
    (fun _ => some { pdfWidth := 600, pdfHeight := 800 })
    (fun _ => none) (fun _ => none) "2026-01-01" { pdfWidth := 600, pdfHeight := 800 }
    (by decide) (by simp)
    (by intro f hf
        rcases List.mem_cons.mp hf with rfl | hf2
        · decide
        · rcases List.mem_singleton.mp hf2 with rfl
          decide)
    rfl
    (by intro f hf
        rcases List.mem_cons.mp hf with rfl | hf2
        · simp
        · rcases List.mem_singleton.mp hf2 with rfl
          simp)
  refine ⟨h.1, ?_⟩
  exact h.2 _ (by simp) (Or.inr rfl) "data:image/png;base64,XXXX" "XXXX" rfl (by decide) rfl rfl

end SigEngine